import Mathlib

/-!
Verification development for the THOMAS Arduino Uno data logger.

The repository carries two near-duplicate revisions of the control core:
`src/THOMAS.ino` (SD-library revision, namespace `ThomasIno` below) and
`src/unnamed/part_000` (SdFat revision, namespace `ThomasSd` below).
Each definition in this file is a shallow embedding of the correspondingly
named function of the indicated revision.  External capabilities (clock,
storage, display, button, sensor) are modelled as explicit inputs; machine
timers use 32-bit modular subtraction as in the source; the decimal
rendering performed by the Arduino `Print` class for float values is kept
abstract (a function parameter), since no property below depends on it.
-/

/-- Character code of a decimal digit `v` (valid for `v < 10`). -/
def dchar (v : Nat) : Char := Char.ofNat (48 + v)

/-- The `isAlpha` test of the Arduino core: ASCII letters only. -/
def isAlphaChar (c : Char) : Bool :=
  ('A' ≤ c && c ≤ 'Z') || ('a' ≤ c && c ≤ 'z')

/-- ASCII decimal digit test (as used by C `atoi`). -/
def isDigitChar (c : Char) : Bool := '0' ≤ c && c ≤ '9'

/-- C `isspace` for the characters `atoi` skips. -/
def isSpaceChar (c : Char) : Bool :=
  c = ' ' || c = '\t' || c = '\n' || c = '\x0b' || c = '\x0c' || c = '\r'

/-- Value of the leading run of digits, with accumulator (helper for `atoi`). -/
def digitsVal : List Char → Nat → Nat
  | [], acc => acc
  | c :: cs, acc =>
      if isDigitChar c then digitsVal cs (acc * 10 + (c.toNat - 48)) else acc

/-- C `atoi` on a (null-terminated) character array: skip whitespace, read an
optional sign, then the leading run of digits (0 if none). -/
def atoi (s : List Char) : Int :=
  match s.dropWhile (fun c => isSpaceChar c) with
  | '-' :: r => - (digitsVal r 0 : Int)
  | '+' :: r => (digitsVal r 0 : Int)
  | r => (digitsVal r 0 : Int)

/-- 32-bit `unsigned long` subtraction `a - b` as computed by the AVR for the
`millis() - timer` comparisons. -/
def wsub32 (a b : Nat) : Nat := (a % 2 ^ 32 + 2 ^ 32 - b % 2 ^ 32) % 2 ^ 32

/-- 16-bit `unsigned int` subtraction (the `THOMAS.ino` revision stores
`refTime` and `timeSeconds` in 16-bit `unsigned int`). -/
def wsub16 (a b : Nat) : Nat := (a % 2 ^ 16 + 2 ^ 16 - b % 2 ^ 16) % 2 ^ 16

/-- Two-character decimal rendering of `v < 100`, high digit first (used to
build the recovery strings of the valid-pattern claims). -/
def two (v : Nat) : List Char := [dchar (v / 10), dchar (v % 10)]

/-- `snprintf` `%02d` rendering: pad to width two with a leading zero. -/
def two2 (v : Nat) : String :=
  if v < 10 then "0" ++ toString v else toString v

namespace ThomasSd

/-- The state values of the `States` enum of `src/unnamed/part_000` (the
`state` global is used as a plain integer by the menu, so states are `Nat`). -/
def ERROR_RTC_LOST_POWER : Nat := 1

def ERROR_DATAFILE_FAILED : Nat := 5

def ERROR_TIME_TXT_NOT_FOUND : Nat := 7

def ERROR_TIME_TXT_FORMAT_INCORRECT : Nat := 8

def DEFAULT_STATE : Nat := 2

def CHECK_RTC : Nat := 0

def READY_FOR_BUTTON_INPUT : Nat := 3

def BUTTON_PRESSED : Nat := 4

def DONE_WORKING_MAY_REMOVE_SD : Nat := 6

/-- The `Modes` enum values. -/
def OFF : Nat := 0

def MODE_SELECT : Nat := 1

def TEMP_HUMIDITY_VIEW : Nat := 2

def DURATION_BYTES_VIEW : Nat := 3

/-- One digit write into a two-character date slot, from `defineDateFile`:
`if (date[x][1]!='0'){ date[x][0]=date[x][1]; } date[x][1] = c;`. -/
def writeDigit (slot : Char × Char) (c : Char) : Char × Char :=
  ((if slot.2 ≠ '0' then slot.2 else slot.1), c)

/-- The `format` progression switch of `defineDateFile`:
`0→1→2→4→6→7`, other values unchanged (no `default` case). -/
def advance (fmt : Nat) : Nat :=
  if fmt = 0 then 1
  else if fmt = 1 then 2
  else if fmt = 2 then 4
  else if fmt = 4 then 6
  else if fmt = 6 then 7
  else fmt

/-- The date-slot index computed in `defineDateFile`:
`int x = format - (format > 3) - (format > 5); if (format==3||format==5) x=6;`. -/
def fieldIndex (fmt : Nat) : Nat :=
  if fmt = 3 ∨ fmt = 5 then 6
  else fmt - (if fmt > 3 then 1 else 0) - (if fmt > 5 then 1 else 0)

/-- The `char date[7][3]` array of `defineDateFile`: seven two-character
slots `MM DD YY HH mm SS XX` (the terminating null of each row is
implicit). -/
structure DateArr where
  f0 : Char × Char
  f1 : Char × Char
  f2 : Char × Char
  f3 : Char × Char
  f4 : Char × Char
  f5 : Char × Char
  f6 : Char × Char
  deriving DecidableEq, Repr

/-- Slot lookup `date[x]`.  The computed index is always `0..6` on the
reachable `format` values; larger indices (out-of-bounds in C) read the
last slot. -/
def slotAt (date : DateArr) (x : Nat) : Char × Char :=
  if x = 0 then date.f0
  else if x = 1 then date.f1
  else if x = 2 then date.f2
  else if x = 3 then date.f3
  else if x = 4 then date.f4
  else if x = 5 then date.f5
  else date.f6

/-- Slot store `date[x] = s`. -/
def setSlot (date : DateArr) (x : Nat) (s : Char × Char) : DateArr :=
  if x = 0 then { date with f0 := s }
  else if x = 1 then { date with f1 := s }
  else if x = 2 then { date with f2 := s }
  else if x = 3 then { date with f3 := s }
  else if x = 4 then { date with f4 := s }
  else if x = 5 then { date with f5 := s }
  else { date with f6 := s }

/-- The validation scan of `defineDateFile` in `src/unnamed/part_000`
(lines 215-282): one pass over the recovery bytes at position `i`,
maintaining `format`, `concurrentUnderlines` (`cu`), `concurrentNumbers`
(`cn`) and the seven two-character date slots.  `none` models the
`ERROR_TIME_TXT_FORMAT_INCORRECT` early return. -/
def scanChars (i fmt cu cn : Nat) (date : DateArr) :
    List Char → Option (DateArr × Nat)
  | [] => some (date, fmt)
  | c :: cs =>
      if c = '\n' ∨ c = '\r' then scanChars (i + 1) fmt cu cn date cs
      else if isAlphaChar c ∧ c ≠ '_' then none
      else if c = '_' then
        if i = 0 then none
        else if cu + 1 = 2 then
          if fmt = 2 then scanChars (i + 1) 3 2 0 date cs
          else if fmt = 4 then scanChars (i + 1) 5 2 0 date cs
          else none
        else if cu + 1 > 2 then none
        else scanChars (i + 1) fmt (cu + 1) 0 date cs
      else
        if cn + 1 > 2 then none
        else
          let fmt' := if cu = 1 then advance fmt else fmt
          let cu' := if cu = 1 then 0 else cu
          let x := fieldIndex fmt'
          scanChars (i + 1) fmt' cu' (cn + 1)
            (setSlot date x (writeDigit (slotAt date x) c)) cs

/-- The initial date array: seven slots, all `"00"`. -/
def date0 : DateArr :=
  ⟨('0', '0'), ('0', '0'), ('0', '0'), ('0', '0'), ('0', '0'), ('0', '0'),
    ('0', '0')⟩

/-- The six integers passed to `rtc.adjust` plus the final `format` value,
on a successful scan of a recovery record. -/
structure ParseOk where
  year : Int
  month : Int
  day : Int
  hour : Int
  minute : Int
  second : Int
  fmt : Nat
  deriving DecidableEq, Repr

/-- The two characters of a date slot, as the list `atoi` reads. -/
def slotChars (p : Char × Char) : List Char := [p.1, p.2]

/-- The recovery-record parse of `defineDateFile`: run the scan, then
convert the slots with `atoi` exactly as the `rtc.adjust` call does
(`year = atoi(date[2]) + 2000`, month `date[0]`, day `date[1]`,
hour `date[3]`, minute `date[4]`, second `date[5]`). -/
def parseRecovery (line : List Char) : Option ParseOk :=
  match scanChars 0 0 0 0 date0 line with
  | none => none
  | some (date, fmt) =>
      some { year := atoi (slotChars (slotAt date 2)) + 2000
             month := atoi (slotChars (slotAt date 0))
             day := atoi (slotChars (slotAt date 1))
             hour := atoi (slotChars (slotAt date 3))
             minute := atoi (slotChars (slotAt date 4))
             second := atoi (slotChars (slotAt date 5))
             fmt := fmt }

/-- The storage card as the core sees it: the first line of `time.txt`
(if that file exists) and the `sd.exists` predicate over file names. -/
structure Storage where
  timeTxt : Option (List Char)
  ex : String → Bool

/-- Remove `time.txt` (the one-shot consumption of the recovery record). -/
def Storage.removeTimeTxt (s : Storage) : Storage :=
  { s with timeTxt := none }

/-- A successful `sd.open(name, FILE_WRITE)` creates the file. -/
def Storage.addFile (s : Storage) (name : String) : Storage :=
  { s with ex := fun n => n = name || s.ex n }

/-- The collision probe of `defineDateFile` in `src/unnamed/part_000`
(lines 292-306): `while(true){ ++i; fileName = savedName__i.txt;
if(sd.exists(fileName)){ savedName = fileName; break; } }`.
The loop is modelled with fuel; `none` models its non-termination
(it only stops on a name that exists). -/
def probe (ex : String → Bool) (base : String) : Nat → Nat → Option String
  | _, 0 => none
  | i, fuel + 1 =>
      let name := base ++ "__" ++ toString (i + 1) ++ ".txt"
      if ex name then some name else probe ex base (i + 1) fuel

/-- Everything `defineDateFile` does to the globals and peripherals:
the `state` assignment of an error return, the values handed to
`rtc.adjust`, the name passed to `sd.open` and whether that open produced
a usable handle, the storage after the call, the new `refTime` (the
revision re-reads `rtc.now().unixtime()` right after adjusting), and a
marker for the unbounded collision loop running out of fuel. -/
structure DefineOut where
  errSt : Option Nat
  adjusted : Option ParseOk
  openedName : Option String
  fileOk : Bool
  storageAfter : Storage
  refTimeAfter : Option Nat
  diverged : Bool

/-- The wall-clock date read from the RTC (used for the filename when the
clock retained power). -/
structure Clk where
  month : Nat
  day : Nat
  year : Nat
  hour : Nat
  minute : Nat
  deriving DecidableEq, Repr

/-- The `MM_DD_YY_HH_mm.txt` filename built by `snprintf` when the RTC
retained power. -/
def clockName (c : Clk) : String :=
  two2 c.month ++ "_" ++ two2 c.day ++ "_" ++ two2 (c.year - 2000) ++ "_" ++
    two2 c.hour ++ "_" ++ two2 c.minute ++ ".txt"

/-- `defineDateFile` of `src/unnamed/part_000` (lines 173-333).
`lostPower` is the `rtc.lostPower()` reading, `openOk` tells whether
`sd.open(-, FILE_WRITE)` yields a truthy handle for a given name,
`nowEpoch` is `rtc.now().unixtime()` after the adjust, and `fuel` bounds
the unbounded collision loop. -/
def defineDateFile (lostPower : Bool) (stor : Storage)
    (openOk : String → Bool) (clk : Clk) (nowEpoch fuel : Nat) : DefineOut :=
  if lostPower = true ∧ stor.timeTxt = none then
    { errSt := some ERROR_TIME_TXT_NOT_FOUND, adjusted := none
      openedName := none, fileOk := false, storageAfter := stor
      refTimeAfter := none, diverged := false }
  else if lostPower = true then
    match stor.timeTxt with
    | none =>
        { errSt := some ERROR_TIME_TXT_NOT_FOUND, adjusted := none
          openedName := none, fileOk := false, storageAfter := stor
          refTimeAfter := none, diverged := false }
    | some line =>
        match parseRecovery line with
        | none =>
            { errSt := some ERROR_TIME_TXT_FORMAT_INCORRECT, adjusted := none
              openedName := none, fileOk := false, storageAfter := stor
              refTimeAfter := none, diverged := false }
        | some p =>
            let base := String.mk line
            if stor.ex base ∧ p.fmt ≠ 2 ∧ p.fmt ≠ 4 then
              match probe stor.ex base 0 fuel with
              | none =>
                  { errSt := none, adjusted := some p, openedName := none
                    fileOk := false, storageAfter := stor
                    refTimeAfter := some nowEpoch, diverged := true }
              | some name =>
                  let ok := openOk name
                  { errSt := none, adjusted := some p
                    openedName := some name, fileOk := ok
                    storageAfter :=
                      ((if ok then stor.addFile name else stor).removeTimeTxt)
                    refTimeAfter := some nowEpoch, diverged := false }
            else if stor.ex base then
              { errSt := some ERROR_TIME_TXT_FORMAT_INCORRECT
                adjusted := some p, openedName := none, fileOk := false
                storageAfter := stor, refTimeAfter := some nowEpoch
                diverged := false }
            else
              let name := base ++ ".txt"
              let ok := openOk name
              { errSt := none, adjusted := some p, openedName := some name
                fileOk := ok
                storageAfter :=
                  ((if ok then stor.addFile name else stor).removeTimeTxt)
                refTimeAfter := some nowEpoch, diverged := false }
  else
    let name := clockName clk
    let ok := openOk name
    { errSt := none, adjusted := none, openedName := some name, fileOk := ok
      storageAfter := if ok then stor.addFile name else stor
      refTimeAfter := none, diverged := false }

/-- The global state the off-mode and menu controllers touch.
`buttonLow` in `Env` is `digitalRead(buttonPin) == LOW` (pressed);
`led` is the level written to the LED pin (`true` = `HIGH`, idle);
`fileWritten` collects the bytes written through the currently open
`dataFile` handle. -/
structure World where
  mode : Nat
  state : Nat
  numBytes : Nat
  numDataPoints : Nat
  timeSeconds : Nat
  logCooldown : Nat
  idolingTime : Nat
  lastPressTime : Nat
  preventDoubleClick : Nat
  refTime : Nat
  led : Bool
  fileOpen : Bool
  fileWritten : String
  storage : Storage
  stuck : Bool

/-- Per-tick inputs from the peripherals. -/
structure Env where
  now : Nat
  buttonLow : Bool
  lostPower : Bool
  sdBeginOk : Bool
  openOk : String → Bool
  clk : Clk
  nowEpoch : Nat
  fuel : Nat

/-- The fixed CSV header row written on session start (Arduino `println`
appends `"\r\n"`). -/
def headerLine : String :=
  "Time (Seconds),Temperature (Celcius), Humidity (%RH)\r\n"

/-- `offMode` of `src/unnamed/part_000` (lines 492-603): the `CHECK_RTC`
probe, the display `switch` with its state fallthroughs to
`READY_FOR_BUTTON_INPUT`, and the button edge handling that attempts the
session start.  Display writes are capability calls with no core effect
and are omitted.  The healthy-clock branch of the probe reads
`state = DEFAULT;` in the source, and on AVR `DEFAULT` is the Arduino
core's analog-reference macro with value 1 (this revision renamed the
enum member to `DEFAULT_STATE` because of that very macro but missed this
one use), so the assignment stores 1. -/
def offMode (w : World) (e : Env) : World :=
  let w :=
    if w.state = CHECK_RTC then
      if e.lostPower then
        { w with logCooldown := e.now, state := ERROR_RTC_LOST_POWER }
      else { w with state := 1 }
    else w
  let w :=
    if w.state = ERROR_RTC_LOST_POWER then
      if wsub32 e.now w.logCooldown > 7000 then
        { w with state := READY_FOR_BUTTON_INPUT }
      else w
    else if w.state = ERROR_DATAFILE_FAILED ∨ w.state = ERROR_TIME_TXT_NOT_FOUND
        ∨ w.state = ERROR_TIME_TXT_FORMAT_INCORRECT ∨ w.state = DEFAULT_STATE
        ∨ w.state = DONE_WORKING_MAY_REMOVE_SD then
      { w with state := READY_FOR_BUTTON_INPUT }
    else w
  if e.buttonLow ∧
      (w.state = READY_FOR_BUTTON_INPUT ∨ w.state = ERROR_RTC_LOST_POWER) then
    { w with state := BUTTON_PRESSED }
  else if ¬e.buttonLow ∧ w.state = BUTTON_PRESSED then
    if ¬e.sdBeginOk then { w with state := ERROR_DATAFILE_FAILED }
    else
      let r := defineDateFile e.lostPower w.storage e.openOk e.clk e.nowEpoch
        e.fuel
      let w := { w with storage := r.storageAfter
                        refTime := r.refTimeAfter.getD w.refTime }
      if r.diverged then { w with stuck := true }
      else
        match r.errSt with
        | some s => { w with state := s }
        | none =>
            if ¬r.fileOk then
              { w with state := ERROR_DATAFILE_FAILED, fileOpen := false
                       fileWritten := "" }
            else
              { w with numBytes := w.numBytes + headerLine.length
                       state := DEFAULT_STATE
                       idolingTime := e.now
                       mode := TEMP_HUMIDITY_VIEW
                       led := false
                       fileOpen := true
                       fileWritten := headerLine }
  else w

/-- `menue` of `src/unnamed/part_000` (lines 622-710): the auto-confirm
commit after `MENUE_SELECT_DURATION` (2000 ms), then the press/release
edge handling with the `preventDoubleClick` suppression window.
LCD redraws are omitted. -/
def menue (w : World) (e : Env) : World :=
  let w :=
    if wsub32 e.now w.lastPressTime > 2000 ∧ w.state % 2 = 0 then
      if w.state = 2 then
        { w with mode := TEMP_HUMIDITY_VIEW, state := DEFAULT_STATE
                 idolingTime := e.now }
      else if w.state = 4 then
        { w with mode := DURATION_BYTES_VIEW, state := DEFAULT_STATE
                 idolingTime := e.now }
      else if w.state = 6 then
        { w with mode := OFF, state := DONE_WORKING_MAY_REMOVE_SD
                 fileOpen := false, led := true }
      else w
    else w
  if e.buttonLow ∧ w.state % 2 = 0 then
    let s := w.state + 1
    { w with state := if s > 5 then s - 6 else s }
  else if ¬e.buttonLow ∧ w.state % 2 = 1 then
    { w with state := w.state + 1, preventDoubleClick := e.now }
  else if ¬e.buttonLow ∧ w.state % 2 = 0 ∧ w.preventDoubleClick ≠ 0 ∧
      wsub32 e.now w.preventDoubleClick > 50 then
    { w with lastPressTime := e.now, preventDoubleClick := 0 }
  else w

end ThomasSd

namespace ThomasIno

/-- The probe name `snprintf(fileName, .., "%s__%i.dat", savedName, i)` of
`src/THOMAS.ino`. -/
def probeName (base : String) (i : Nat) : String :=
  base ++ "__" ++ toString i ++ ".dat"

/-- The collision probe of `defineDateFile` in `src/THOMAS.ino`
(lines 288-302): `while(true){ ++i; fileName = savedName__i.dat;
if(!SD.exists(fileName)){ savedName = fileName; break; } }`.
The unbounded loop is modelled with fuel. -/
def probe (ex : String → Bool) (base : String) : Nat → Nat → Option String
  | _, 0 => none
  | i, fuel + 1 =>
      let name := probeName base (i + 1)
      if ex name then probe ex base (i + 1) fuel else some name

/-- Outcome of the collision-resolution step of `src/THOMAS.ino`
`defineDateFile` (lines 287-310): the chosen output name, the ambiguity
error (`state = ERROR_TIME_TXT_FORMAT_INCORRECT`), or fuel exhaustion of
the probe loop. -/
inductive NameResult where
  | name (s : String)
  | ambiguous
  | noFuel
  deriving DecidableEq, Repr

/-- Collision resolution of `src/THOMAS.ino` `defineDateFile`
(lines 287-310), given the validated recovery string `base`, its parsed
`format`, and the `SD.exists` predicate. -/
def resolveCollision (ex : String → Bool) (base : String) (fmt : Nat)
    (fuel : Nat) : NameResult :=
  if ex base ∧ fmt ≠ 2 ∧ fmt ≠ 4 then
    match probe ex base 0 fuel with
    | some n => .name n
    | none => .noFuel
  else if ex base then .ambiguous
  else .name (base ++ ".dat")

/-- The globals touched by the logging path of `src/THOMAS.ino`
(`loop` lines 339-351 and `log` lines 402-421).  Sensor floats are
`Option ℚ`, `none` standing for NaN; `flushedNow` records whether
`dataFile.flush()` was invoked on this tick. -/
structure LogSt where
  mode : Nat
  numBytes : Nat
  numDataPoints : Nat
  logCooldown : Nat
  timeSeconds : Nat
  temperature : Option ℚ
  humidity : Option ℚ
  refTime : Nat
  fileWritten : String
  flushedNow : Bool

/-- Sensor and clock inputs of one tick. -/
structure Tick where
  now : Nat
  rtcNow : Nat
  dhtHumidity : Option ℚ
  dhtTemperature : Option ℚ

/-- `log` of `src/THOMAS.ino` (lines 402-421): store the elapsed time and
the fresh sensor reads, drop the sample if either read is NaN, otherwise
append the CSV record and account its exact byte count.  `printF` is the
decimal rendering of the Arduino `Print` class for floats (abstract). -/
def log (printF : ℚ → String) (st : LogSt) (t : Tick) : LogSt :=
  let st := { st with timeSeconds := wsub16 t.rtcNow st.refTime }
  let st := { st with humidity := t.dhtHumidity
                      temperature := t.dhtTemperature }
  match st.humidity, st.temperature with
  | some h, some tc =>
      let line := toString st.timeSeconds ++ "," ++ printF tc ++ "," ++
        printF h ++ "\r\n"
      { st with numBytes := st.numBytes + line.length
                fileWritten := st.fileWritten ++ line }
  | _, _ => st

/-- The logging portion of `loop` in `src/THOMAS.ino` (lines 339-351):
when a session is active and the cooldown elapsed, count the tick, call
`log`, rearm the cooldown, and flush every fifth tick. -/
def loopTick (printF : ℚ → String) (st : LogSt) (t : Tick) : LogSt :=
  if st.mode ≠ 0 then
    if wsub32 t.now st.logCooldown > 5000 then
      let st := { st with numDataPoints := st.numDataPoints + 1
                          flushedNow := false }
      let st := log printF st t
      let st := { st with logCooldown := t.now }
      if st.numDataPoints % 5 = 0 then { st with flushedNow := true } else st
    else { st with flushedNow := false }
  else st

/-- A whole run of logging ticks. -/
def runTicks (printF : ℚ → String) (st : LogSt) (ts : List Tick) : LogSt :=
  ts.foldl (loopTick printF) st

end ThomasIno

namespace ThomasSd

/-- The date slot produced by scanning a two-digit field of value `v`. -/
def wtwo (v : Nat) : Char × Char :=
  writeDigit (writeDigit ('0', '0') (dchar (v / 10))) (dchar (v % 10))

/-- Date array after scanning `MM_DD_YY`. -/
def dateMDY (m d y : Nat) : DateArr :=
  ⟨wtwo m, wtwo d, wtwo y, ('0', '0'), ('0', '0'), ('0', '0'), ('0', '0')⟩

/-- Date array after scanning `MM_DD_YY_HH`. -/
def dateMDYH (m d y hh : Nat) : DateArr :=
  ⟨wtwo m, wtwo d, wtwo y, wtwo hh, ('0', '0'), ('0', '0'), ('0', '0')⟩

/-- Date array after scanning `MM_DD_YY_HH_mm`. -/
def dateMDYHM (m d y hh mi : Nat) : DateArr :=
  ⟨wtwo m, wtwo d, wtwo y, wtwo hh, wtwo mi, ('0', '0'), ('0', '0')⟩

/-- Date array after scanning `MM_DD_YY_HH_mm_SS`. -/
def dateFull (m d y hh mi ss : Nat) : DateArr :=
  ⟨wtwo m, wtwo d, wtwo y, wtwo hh, wtwo mi, wtwo ss, ('0', '0')⟩

end ThomasSd


namespace ThomasIno

/-- The validation scan of `defineDateFile` in `src/THOMAS.ino`
(lines 221-281).  It differs from the `src/unnamed/part_000` revision in
two ways: there is no skip of `\n`/`\r` bytes, and the underscore branch
does not reset `concurrentNumbers`. -/
def scanChars (i fmt cu cn : Nat) (date : ThomasSd.DateArr) :
    List Char → Option (ThomasSd.DateArr × Nat)
  | [] => some (date, fmt)
  | c :: cs =>
      if isAlphaChar c ∧ c ≠ '_' then none
      else if c = '_' then
        if i = 0 then none
        else if cu + 1 = 2 then
          if fmt = 2 then scanChars (i + 1) 3 2 cn date cs
          else if fmt = 4 then scanChars (i + 1) 5 2 cn date cs
          else none
        else if cu + 1 > 2 then none
        else scanChars (i + 1) fmt (cu + 1) cn date cs
      else
        if cn + 1 > 2 then none
        else
          let fmt' := if cu = 1 then ThomasSd.advance fmt else fmt
          let cu' := if cu = 1 then 0 else cu
          let x := ThomasSd.fieldIndex fmt'
          scanChars (i + 1) fmt' cu' (cn + 1)
            (ThomasSd.setSlot date x
              (ThomasSd.writeDigit (ThomasSd.slotAt date x) c)) cs

/-- The recovery-record parse of `defineDateFile` in `src/THOMAS.ino`. -/
def parseRecovery (line : List Char) : Option ThomasSd.ParseOk :=
  match scanChars 0 0 0 0 ThomasSd.date0 line with
  | none => none
  | some (date, fmt) =>
      some { year := atoi (ThomasSd.slotChars (ThomasSd.slotAt date 2)) + 2000
             month := atoi (ThomasSd.slotChars (ThomasSd.slotAt date 0))
             day := atoi (ThomasSd.slotChars (ThomasSd.slotAt date 1))
             hour := atoi (ThomasSd.slotChars (ThomasSd.slotAt date 3))
             minute := atoi (ThomasSd.slotChars (ThomasSd.slotAt date 4))
             second := atoi (ThomasSd.slotChars (ThomasSd.slotAt date 5))
             fmt := fmt }

end ThomasIno

namespace ThomasSd

/-- Modelled from the spec: the battery-backed Clock is an external
capability (not code of this repository); its contract says `healthOk()`
is false after power loss / time unset, and `adjust(...)` sets the time
(the DS3231 driver clears the oscillator-stop flag on adjust).  So after
a `defineDateFile` call that reached `rtc.adjust` — exactly the calls
whose `adjusted` field is set — `rtc.lostPower()` reads false. -/
def lostPowerAfter (lostPower : Bool) (r : DefineOut) : Bool :=
  if r.adjusted.isSome then false else lostPower

/-- Concrete start scenario used by witnesses: a valid `06_01_24`
recovery record on storage, base name free, `state = BUTTON_PRESSED`. -/
def wRec : World :=
  ⟨0, 4, 0, 0, 0, 0, 0, 0, 0, 0, true, false, "",
    ⟨some ['0', '6', '_', '0', '1', '_', '2', '4'], fun _ => false⟩, false⟩

/-- Recovery-path environment whose output open succeeds. -/
def eRecOk : Env :=
  ⟨50, false, true, true, fun _ => true, ⟨6, 1, 2024, 10, 5⟩, 0, 1⟩

/-- Recovery-path environment whose output open fails. -/
def eRecFail : Env :=
  ⟨50, false, true, true, fun _ => false, ⟨6, 1, 2024, 10, 5⟩, 0, 1⟩

/-- A world in `BUTTON_PRESSED` with no recovery record. -/
def wClk : World :=
  ⟨0, 4, 0, 0, 0, 0, 0, 0, 0, 0, true, false, "",
    ⟨none, fun _ => false⟩, false⟩

/-- Healthy-clock environment whose output open succeeds (also the retry
environment once the clock has been set). -/
def eClkOk : Env :=
  ⟨60, false, false, true, fun _ => true, ⟨6, 1, 2024, 0, 0⟩, 0, 1⟩

end ThomasSd

/-! ## End of definitions; theorems follow. -/

namespace ThomasSd

/-! Helper lemmas for the recovery parser. -/

theorem dchar_facts : ∀ v < 10, isAlphaChar (dchar v) = false ∧ dchar v ≠ '_' ∧
    dchar v ≠ '\n' ∧ dchar v ≠ '\r' := by decide

theorem atoi_two : ∀ k < 10, ∀ u < 10,
    atoi [dchar k, dchar u] = (10 * k + u : Int) := by decide

theorem dchar_zero : ∀ v < 10, ((dchar v = '0') ↔ v = 0) := by decide

theorem atoi_writeTwo (v : Nat) (hv : v < 100) :
    atoi [(wtwo v).1, (wtwo v).2] = (v : Int) := by
  unfold wtwo
  have h1 : v / 10 < 10 := by omega
  have h2 : v % 10 < 10 := by omega
  by_cases h : v / 10 = 0
  · have hz : dchar (v / 10) = '0' := by rw [h]; rfl
    simp only [writeDigit, hz]
    norm_num
    have := atoi_two 0 (by norm_num) (v % 10) h2
    simp only [show dchar 0 = '0' from rfl] at this
    rw [this]
    omega
  · have hz : dchar (v / 10) ≠ '0' := fun hc => h ((dchar_zero _ h1).mp hc)
    simp only [writeDigit]
    norm_num [hz]
    rw [atoi_two _ h1 _ h2]
    omega

theorem scan_nil (i fmt cu cn : Nat) (date : DateArr) :
    scanChars i fmt cu cn date [] = some (date, fmt) := rfl

theorem scan_digit (i fmt cu cn : Nat) (date : DateArr) (cs : List Char)
    (v : Nat) (hv : v < 10) :
    scanChars i fmt cu cn date (dchar v :: cs) =
      if cn + 1 > 2 then none
      else
        scanChars (i + 1) (if cu = 1 then advance fmt else fmt)
          (if cu = 1 then 0 else cu) (cn + 1)
          (setSlot date (fieldIndex (if cu = 1 then advance fmt else fmt))
            (writeDigit
              (slotAt date (fieldIndex (if cu = 1 then advance fmt else fmt)))
              (dchar v))) cs := by
  obtain ⟨ha, hu, hn, hr⟩ := dchar_facts v hv
  simp only [scanChars]
  rw [if_neg (by simp [hn, hr]), if_neg (by simp [ha]), if_neg hu]

theorem scan_uscore (i fmt cu cn : Nat) (date : DateArr) (cs : List Char)
    (hi : i ≠ 0) :
    scanChars i fmt cu cn date ('_' :: cs) =
      if cu + 1 = 2 then
        if fmt = 2 then scanChars (i + 1) 3 2 0 date cs
        else if fmt = 4 then scanChars (i + 1) 5 2 0 date cs
        else none
      else if cu + 1 > 2 then none
      else scanChars (i + 1) fmt (cu + 1) 0 date cs := by
  simp only [scanChars]
  simp [hi]

theorem scan_mmddyy (m d y : Nat) (hm : m < 100) (hd : d < 100)
    (hy : y < 100) (cs : List Char) :
    scanChars 0 0 0 0 date0 (two m ++ '_' :: (two d ++ '_' :: (two y ++ cs)))
      = scanChars 8 2 0 2 (dateMDY m d y) cs := by
  have hm1 : m / 10 < 10 := by omega
  have hm2 : m % 10 < 10 := by omega
  have hd1 : d / 10 < 10 := by omega
  have hd2 : d % 10 < 10 := by omega
  have hy1 : y / 10 < 10 := by omega
  have hy2 : y % 10 < 10 := by omega
  show scanChars 0 0 0 0 date0
      (dchar (m / 10) :: dchar (m % 10) :: '_' :: dchar (d / 10) ::
        dchar (d % 10) :: '_' :: dchar (y / 10) :: dchar (y % 10) :: cs) = _
  rw [scan_digit _ _ _ _ _ _ _ hm1]
  norm_num [advance, fieldIndex, setSlot, slotAt, date0]
  rw [scan_digit _ _ _ _ _ _ _ hm2]
  norm_num [advance, fieldIndex, setSlot, slotAt]
  rw [scan_uscore _ _ _ _ _ _ (by norm_num)]
  norm_num
  rw [scan_digit _ _ _ _ _ _ _ hd1]
  norm_num [advance, fieldIndex, setSlot, slotAt]
  rw [scan_digit _ _ _ _ _ _ _ hd2]
  norm_num [advance, fieldIndex, setSlot, slotAt]
  rw [scan_uscore _ _ _ _ _ _ (by norm_num)]
  norm_num
  rw [scan_digit _ _ _ _ _ _ _ hy1]
  norm_num [advance, fieldIndex, setSlot, slotAt]
  rw [scan_digit _ _ _ _ _ _ _ hy2]
  norm_num [advance, fieldIndex, setSlot, slotAt]
  rfl

theorem scan_hhfield (m d y hh : Nat) (hh2 : hh < 100) (cs : List Char) :
    scanChars 8 2 0 2 (dateMDY m d y) ('_' :: (two hh ++ cs))
      = scanChars 11 4 0 2 (dateMDYH m d y hh) cs := by
  have h1 : hh / 10 < 10 := by omega
  have h2 : hh % 10 < 10 := by omega
  show scanChars 8 2 0 2 (dateMDY m d y)
      ('_' :: dchar (hh / 10) :: dchar (hh % 10) :: cs) = _
  rw [scan_uscore _ _ _ _ _ _ (by norm_num)]
  norm_num
  rw [scan_digit _ _ _ _ _ _ _ h1]
  norm_num [advance, fieldIndex, setSlot, slotAt, dateMDY]
  rw [scan_digit _ _ _ _ _ _ _ h2]
  norm_num [advance, fieldIndex, setSlot, slotAt]
  rfl

theorem scan_mifield (m d y hh mi : Nat) (hmi : mi < 100) (cs : List Char) :
    scanChars 11 4 0 2 (dateMDYH m d y hh) ('_' :: (two mi ++ cs))
      = scanChars 14 6 0 2 (dateMDYHM m d y hh mi) cs := by
  have h1 : mi / 10 < 10 := by omega
  have h2 : mi % 10 < 10 := by omega
  show scanChars 11 4 0 2 (dateMDYH m d y hh)
      ('_' :: dchar (mi / 10) :: dchar (mi % 10) :: cs) = _
  rw [scan_uscore _ _ _ _ _ _ (by norm_num)]
  norm_num
  rw [scan_digit _ _ _ _ _ _ _ h1]
  norm_num [advance, fieldIndex, setSlot, slotAt, dateMDYH]
  rw [scan_digit _ _ _ _ _ _ _ h2]
  norm_num [advance, fieldIndex, setSlot, slotAt]
  rfl

theorem scan_ssfield (m d y hh mi ss : Nat) (hss : ss < 100) :
    scanChars 14 6 0 2 (dateMDYHM m d y hh mi) ('_' :: two ss)
      = some (dateFull m d y hh mi ss, 7) := by
  have h1 : ss / 10 < 10 := by omega
  have h2 : ss % 10 < 10 := by omega
  show scanChars 14 6 0 2 (dateMDYHM m d y hh mi)
      ('_' :: dchar (ss / 10) :: dchar (ss % 10) :: []) = _
  rw [scan_uscore _ _ _ _ _ _ (by norm_num)]
  norm_num
  rw [scan_digit _ _ _ _ _ _ _ h1]
  norm_num [advance, fieldIndex, setSlot, slotAt, dateMDYHM]
  rw [scan_digit _ _ _ _ _ _ _ h2]
  norm_num [advance, fieldIndex, setSlot, slotAt]
  rfl

theorem parse_valid_mmddyy (m d y : Nat) (hm : m < 100) (hd : d < 100)
    (hy : y < 100) :
    parseRecovery (two m ++ '_' :: (two d ++ '_' :: (two y ++ []))) =
      some ⟨(y : Int) + 2000, (m : Int), (d : Int), 0, 0, 0, 2⟩ := by
  unfold parseRecovery
  rw [scan_mmddyy m d y hm hd hy, scan_nil]
  simp only [dateMDY, slotAt, slotChars]
  norm_num
  exact ⟨atoi_writeTwo y hy, atoi_writeTwo m hm, atoi_writeTwo d hd,
    by decide⟩

theorem parse_valid_mmddyyhh (m d y hh : Nat) (hm : m < 100) (hd : d < 100)
    (hy : y < 100) (hh2 : hh < 100) :
    parseRecovery
        (two m ++ '_' :: (two d ++ '_' :: (two y ++ '_' :: (two hh ++ [])))) =
      some ⟨(y : Int) + 2000, (m : Int), (d : Int), (hh : Int), 0, 0, 4⟩ := by
  unfold parseRecovery
  rw [scan_mmddyy m d y hm hd hy, scan_hhfield m d y hh hh2, scan_nil]
  simp only [dateMDYH, slotAt, slotChars]
  norm_num
  exact ⟨atoi_writeTwo y hy, atoi_writeTwo m hm, atoi_writeTwo d hd,
    atoi_writeTwo hh hh2, by decide⟩

theorem parse_valid_mmddyy_n (m d y n : Nat) (hm : m < 100) (hd : d < 100)
    (hy : y < 100) (hn : n < 10) :
    parseRecovery
        (two m ++ '_' :: (two d ++ '_' :: (two y ++ '_' :: '_' :: [dchar n])))
      = some ⟨(y : Int) + 2000, (m : Int), (d : Int), 0, 0, 0, 3⟩ := by
  unfold parseRecovery
  rw [scan_mmddyy m d y hm hd hy]
  rw [scan_uscore _ _ _ _ _ _ (by norm_num)]
  norm_num
  rw [scan_uscore _ _ _ _ _ _ (by norm_num)]
  norm_num
  rw [scan_digit _ _ _ _ _ _ _ hn]
  norm_num [advance, fieldIndex, setSlot, slotAt, dateMDY]
  rw [scan_nil]
  simp only [slotAt, slotChars]
  norm_num
  exact ⟨atoi_writeTwo y hy, atoi_writeTwo m hm, atoi_writeTwo d hd,
    by decide⟩

theorem parse_valid_mmddyyhh_n (m d y hh n : Nat) (hm : m < 100) (hd : d < 100)
    (hy : y < 100) (hh2 : hh < 100) (hn : n < 10) :
    parseRecovery
        (two m ++ '_' :: (two d ++ '_' :: (two y ++ '_' ::
          (two hh ++ '_' :: '_' :: [dchar n]))))
      = some ⟨(y : Int) + 2000, (m : Int), (d : Int), (hh : Int), 0, 0, 5⟩ := by
  unfold parseRecovery
  rw [scan_mmddyy m d y hm hd hy, scan_hhfield m d y hh hh2]
  rw [scan_uscore _ _ _ _ _ _ (by norm_num)]
  norm_num
  rw [scan_uscore _ _ _ _ _ _ (by norm_num)]
  norm_num
  rw [scan_digit _ _ _ _ _ _ _ hn]
  norm_num [advance, fieldIndex, setSlot, slotAt, dateMDYH]
  rw [scan_nil]
  simp only [slotAt, slotChars]
  norm_num
  exact ⟨atoi_writeTwo y hy, atoi_writeTwo m hm, atoi_writeTwo d hd,
    atoi_writeTwo hh hh2, by decide⟩

theorem parse_valid_mmddyyhhmm (m d y hh mi : Nat) (hm : m < 100) (hd : d < 100)
    (hy : y < 100) (hh2 : hh < 100) (hmi : mi < 100) :
    parseRecovery
        (two m ++ '_' :: (two d ++ '_' :: (two y ++ '_' ::
          (two hh ++ '_' :: (two mi ++ [])))))
      = some ⟨(y : Int) + 2000, (m : Int), (d : Int), (hh : Int), (mi : Int),
          0, 6⟩ := by
  unfold parseRecovery
  rw [scan_mmddyy m d y hm hd hy, scan_hhfield m d y hh hh2,
    scan_mifield m d y hh mi hmi, scan_nil]
  simp only [dateMDYHM, slotAt, slotChars]
  norm_num
  exact ⟨atoi_writeTwo y hy, atoi_writeTwo m hm, atoi_writeTwo d hd,
    atoi_writeTwo hh hh2, atoi_writeTwo mi hmi, by decide⟩

theorem parse_valid_mmddyyhhmmss (m d y hh mi ss : Nat) (hm : m < 100) (hd : d < 100)
    (hy : y < 100) (hh2 : hh < 100) (hmi : mi < 100) (hss : ss < 100) :
    parseRecovery
        (two m ++ '_' :: (two d ++ '_' :: (two y ++ '_' ::
          (two hh ++ '_' :: (two mi ++ '_' :: two ss)))))
      = some ⟨(y : Int) + 2000, (m : Int), (d : Int), (hh : Int), (mi : Int),
          (ss : Int), 7⟩ := by
  unfold parseRecovery
  rw [scan_mmddyy m d y hm hd hy, scan_hhfield m d y hh hh2,
    scan_mifield m d y hh mi hmi, scan_ssfield m d y hh mi ss hss]
  simp only [dateFull, slotAt, slotChars]
  norm_num
  exact ⟨atoi_writeTwo y hy, atoi_writeTwo m hm, atoi_writeTwo d hd,
    atoi_writeTwo hh hh2, atoi_writeTwo mi hmi, atoi_writeTwo ss hss⟩

/-- C1: every recovery string of one of the six valid patterns
`MM_DD_YY`, `MM_DD_YY__N`, `MM_DD_YY_HH`, `MM_DD_YY_HH__N`,
`MM_DD_YY_HH_mm`, `MM_DD_YY_HH_mm_SS` is accepted by the recovery scan of
`defineDateFile` (`src/unnamed/part_000`), and the six values handed to
`rtc.adjust` are exactly the encoded fields (year offset by 2000, unseen
fields 0); moreover an underscore resets the consecutive-digit counter to
zero, so a second two-digit field never trips the more-than-two-digits
check. -/
theorem claim_C1_valid_patterns_parse_exact :
    (∀ m d y : Nat, m < 100 → d < 100 → y < 100 →
      parseRecovery (two m ++ '_' :: (two d ++ '_' :: (two y ++ []))) =
        some ⟨(y : Int) + 2000, (m : Int), (d : Int), 0, 0, 0, 2⟩) ∧
    (∀ m d y n : Nat, m < 100 → d < 100 → y < 100 → n < 10 →
      parseRecovery
          (two m ++ '_' :: (two d ++ '_' :: (two y ++ '_' :: '_' ::
            [dchar n]))) =
        some ⟨(y : Int) + 2000, (m : Int), (d : Int), 0, 0, 0, 3⟩) ∧
    (∀ m d y hh : Nat, m < 100 → d < 100 → y < 100 → hh < 100 →
      parseRecovery
          (two m ++ '_' :: (two d ++ '_' :: (two y ++ '_' ::
            (two hh ++ [])))) =
        some ⟨(y : Int) + 2000, (m : Int), (d : Int), (hh : Int), 0, 0, 4⟩) ∧
    (∀ m d y hh n : Nat, m < 100 → d < 100 → y < 100 → hh < 100 → n < 10 →
      parseRecovery
          (two m ++ '_' :: (two d ++ '_' :: (two y ++ '_' ::
            (two hh ++ '_' :: '_' :: [dchar n])))) =
        some ⟨(y : Int) + 2000, (m : Int), (d : Int), (hh : Int), 0, 0, 5⟩) ∧
    (∀ m d y hh mi : Nat, m < 100 → d < 100 → y < 100 → hh < 100 →
        mi < 100 →
      parseRecovery
          (two m ++ '_' :: (two d ++ '_' :: (two y ++ '_' ::
            (two hh ++ '_' :: (two mi ++ []))))) =
        some ⟨(y : Int) + 2000, (m : Int), (d : Int), (hh : Int), (mi : Int),
          0, 6⟩) ∧
    (∀ m d y hh mi ss : Nat, m < 100 → d < 100 → y < 100 → hh < 100 →
        mi < 100 → ss < 100 →
      parseRecovery
          (two m ++ '_' :: (two d ++ '_' :: (two y ++ '_' ::
            (two hh ++ '_' :: (two mi ++ '_' :: two ss))))) =
        some ⟨(y : Int) + 2000, (m : Int), (d : Int), (hh : Int), (mi : Int),
          (ss : Int), 7⟩) ∧
    (∀ i fmt cn : Nat, ∀ date : DateArr, ∀ cs : List Char, i ≠ 0 →
      scanChars i fmt 0 cn date ('_' :: cs) =
        scanChars (i + 1) fmt 1 0 date cs) := by
  refine ⟨parse_valid_mmddyy, parse_valid_mmddyy_n, parse_valid_mmddyyhh,
    parse_valid_mmddyyhh_n, parse_valid_mmddyyhhmm, parse_valid_mmddyyhhmmss,
    ?_⟩
  intro i fmt cn date cs hi
  rw [scan_uscore _ _ _ _ _ _ hi]
  norm_num

/-- Witness for C1 at the record `06_01_24_10_59_33`. -/
theorem claim_C1_witness :
    parseRecovery
        (two 6 ++ '_' :: (two 1 ++ '_' :: (two 24 ++ '_' ::
          (two 10 ++ '_' :: (two 59 ++ '_' :: two 33))))) =
      some ⟨2024, 6, 1, 10, 59, 33, 7⟩ := by
  exact_mod_cast claim_C1_valid_patterns_parse_exact.2.2.2.2.2.1 6 1 24 10 59
    33 (by norm_num) (by norm_num) (by norm_num) (by norm_num) (by norm_num)
    (by norm_num)

end ThomasSd
namespace ThomasSd

theorem alpha_not_newline {c : Char} (h : isAlphaChar c = true) :
    c ≠ '\n' ∧ c ≠ '\r' := by
  constructor <;> rintro rfl <;> simp [isAlphaChar] at h

theorem scan_alpha_none (l : List Char) :
    ∀ i fmt cu cn : Nat, ∀ date : DateArr,
      (∃ c ∈ l, isAlphaChar c = true ∧ c ≠ '_') →
      scanChars i fmt cu cn date l = none := by
  induction l with
  | nil => rintro i fmt cu cn date ⟨c, hc, -⟩; cases hc
  | cons c cs ih =>
    rintro i fmt cu cn date ⟨c0, hmem, halpha, hne⟩
    rcases List.mem_cons.mp hmem with rfl | hmem
    · obtain ⟨hn, hr⟩ := alpha_not_newline halpha
      simp only [scanChars]
      rw [if_neg (by simp [hn, hr]), if_pos ⟨halpha, hne⟩]
    · have hex : ∃ c1 ∈ cs, isAlphaChar c1 = true ∧ c1 ≠ '_' :=
        ⟨c0, hmem, halpha, hne⟩
      simp only [scanChars]
      split_ifs <;> first | rfl | exact ih _ _ _ _ _ hex

theorem parse_alpha_none (line : List Char)
    (h : ∃ c ∈ line, isAlphaChar c = true ∧ c ≠ '_') :
    parseRecovery line = none := by
  unfold parseRecovery
  rw [scan_alpha_none line 0 0 0 0 date0 h]

/-- C3 (amended): a recovery byte is rejected as
`ERROR_TIME_TXT_FORMAT_INCORRECT` whenever it is an ASCII letter other
than `_`; the scan of `defineDateFile` (`src/unnamed/part_000`) checks
only `isAlpha`, so any record containing such a letter fails. -/
theorem claim_C3_alpha_bytes_rejected :
    ∀ line : List Char, (∃ c ∈ line, isAlphaChar c = true ∧ c ≠ '_') →
      parseRecovery line = none :=
  parse_alpha_none

/-- Witness for C3 (amended) at the record `06a`. -/
theorem claim_C3_witness : parseRecovery ['0', '6', 'a'] = none :=
  claim_C3_alpha_bytes_rejected ['0', '6', 'a']
    ⟨'a', by simp, by decide, by decide⟩

/-- C3 is false as stated: the byte `-` is neither a digit, an underscore,
`\n` nor `\r`, yet the record `06_01_2-` is accepted — the scan only
rejects alphabetic bytes, and `-` is written into the year slot as field
data (`atoi("2-") = 2`, so the clock is adjusted to year 2002). -/
theorem claim_C3_counterexample :
    parseRecovery ['0', '6', '_', '0', '1', '_', '2', '-'] =
      some ⟨2002, 6, 1, 0, 0, 0, 2⟩ := by decide

end ThomasSd
namespace ThomasSd

theorem defineDateFile_ambiguous (stor : Storage) (line : List Char)
    (p : ParseOk) (openOk : String → Bool) (clk : Clk) (nowEpoch fuel : Nat)
    (htxt : stor.timeTxt = some line)
    (hparse : parseRecovery line = some p)
    (hfmt : p.fmt = 2 ∨ p.fmt = 4)
    (hex : stor.ex (String.mk line) = true) :
    defineDateFile true stor openOk clk nowEpoch fuel =
      { errSt := some ERROR_TIME_TXT_FORMAT_INCORRECT, adjusted := some p
        openedName := none, fileOk := false, storageAfter := stor
        refTimeAfter := some nowEpoch, diverged := false } := by
  unfold defineDateFile
  rw [htxt]
  simp only [hparse]
  norm_num
  rcases hfmt with h | h <;> simp [h, hex]

/-- C6 (amended): when the recovery record parses with bare-`YY` format 2
or bare-`HH` format 4 and a file of the base name already exists,
`defineDateFile` (`src/unnamed/part_000`) returns without probing any
`__N` name and without consuming `time.txt`, but the state it reports is
the same `ERROR_TIME_TXT_FORMAT_INCORRECT` used for malformed records —
the code has no distinct ambiguous-name error. -/
theorem claim_C6_ambiguous_name_same_error :
    ∀ (stor : Storage) (line : List Char) (p : ParseOk)
      (openOk : String → Bool) (clk : Clk) (nowEpoch fuel : Nat),
      stor.timeTxt = some line → parseRecovery line = some p →
      (p.fmt = 2 ∨ p.fmt = 4) → stor.ex (String.mk line) = true →
      defineDateFile true stor openOk clk nowEpoch fuel =
        { errSt := some ERROR_TIME_TXT_FORMAT_INCORRECT, adjusted := some p
          openedName := none, fileOk := false, storageAfter := stor
          refTimeAfter := some nowEpoch, diverged := false } :=
  fun stor line p openOk clk nowEpoch fuel htxt hparse hfmt hex =>
    defineDateFile_ambiguous stor line p openOk clk nowEpoch fuel htxt hparse
      hfmt hex

/-- Witness for C6 (amended): the base `06_01_24` (format 2) already
exists on storage. -/
theorem claim_C6_witness :
    defineDateFile true
        { timeTxt := some ['0', '6', '_', '0', '1', '_', '2', '4']
          ex := fun s => s = "06_01_24" }
        (fun _ => true) ⟨6, 1, 2024, 10, 5⟩ 777 9 =
      { errSt := some ERROR_TIME_TXT_FORMAT_INCORRECT
        adjusted := some ⟨2024, 6, 1, 0, 0, 0, 2⟩
        openedName := none, fileOk := false
        storageAfter :=
          { timeTxt := some ['0', '6', '_', '0', '1', '_', '2', '4']
            ex := fun s => s = "06_01_24" }
        refTimeAfter := some 777, diverged := false } :=
  claim_C6_ambiguous_name_same_error
    { timeTxt := some ['0', '6', '_', '0', '1', '_', '2', '4']
      ex := fun s => s = "06_01_24" }
    ['0', '6', '_', '0', '1', '_', '2', '4'] ⟨2024, 6, 1, 0, 0, 0, 2⟩
    (fun _ => true) ⟨6, 1, 2024, 10, 5⟩ 777 9 rfl (by decide) (by decide)
    (by decide)

/-- C6 is false as stated: the error raised for an ambiguous existing base
name is not distinct from the malformed-format error — both produce the
very same `ERROR_TIME_TXT_FORMAT_INCORRECT` state value (8). -/
theorem claim_C6_counterexample :
    (defineDateFile true
        { timeTxt := some ['0', '6', '_', '0', '1', '_', '2', '4']
          ex := fun s => s = "06_01_24" }
        (fun _ => true) ⟨6, 1, 2024, 10, 5⟩ 777 9).errSt =
      some ERROR_TIME_TXT_FORMAT_INCORRECT ∧
    (defineDateFile true
        { timeTxt := some ['a', 'b'], ex := fun _ => false }
        (fun _ => true) ⟨6, 1, 2024, 10, 5⟩ 777 9).errSt =
      some ERROR_TIME_TXT_FORMAT_INCORRECT := by decide

end ThomasSd
namespace ThomasIno

theorem probe_first_free (ex : String → Bool) (base : String) (n : Nat)
    (hfree : ex (probeName base n) = false) :
    ∀ fuel i : Nat, i < n → (∀ j, i < j → j < n → ex (probeName base j) = true) →
      n - i ≤ fuel → probe ex base i fuel = some (probeName base n) := by
  intro fuel
  induction fuel with
  | zero => intro i hi _ hf; omega
  | succ fuel ih =>
    intro i hi hall hf
    by_cases hn : i + 1 = n
    · simp only [probe]
      rw [hn, if_neg (by simp [hfree])]
    · have hi1 : i + 1 < n := by omega
      simp only [probe]
      rw [if_pos (hall (i + 1) (by omega) hi1)]
      exact ih (i + 1) hi1 (fun j h1 h2 => hall j (by omega) h2) (by omega)

/-- C2: in the collision-resolution step of `defineDateFile` in
`src/THOMAS.ino`, when the parsed format is neither bare `YY` (2) nor
bare `HH` (4) and the base name already exists, the probe loop tries
`base__1`, `base__2`, … in increasing order and returns the first name
that does not already exist on storage. -/
theorem claim_C2_probe_picks_first_free :
    ∀ (ex : String → Bool) (base : String) (fmt fuel n : Nat),
      fmt ≠ 2 → fmt ≠ 4 → ex base = true → 0 < n → n ≤ fuel →
      (∀ j, 0 < j → j < n → ex (probeName base j) = true) →
      ex (probeName base n) = false →
      resolveCollision ex base fmt fuel =
        NameResult.name (probeName base n) := by
  intro ex base fmt fuel n h2 h4 hex hn hfuel hall hfree
  unfold resolveCollision
  rw [if_pos ⟨hex, h2, h4⟩,
    probe_first_free ex base n hfree fuel 0 hn (fun j hj1 hj2 => hall j hj1 hj2)
      (by omega)]

/-- Witness for C2: `06_01_24_10` exists (format `MM_DD_YY_HH`, value 4
is excluded, so take a format-6 record) and `06_01_24_10__1.dat` is free. -/
theorem claim_C2_witness :
    resolveCollision (fun s => s = "06_01_24_10") "06_01_24_10" 6 1 =
      NameResult.name "06_01_24_10__1.dat" := by
  have h := claim_C2_probe_picks_first_free (fun s => s = "06_01_24_10")
    "06_01_24_10" 6 1 1 (by decide) (by decide) (by decide) (by decide)
    (by decide) (fun j h1 h2 => by omega) (by decide)
  rwa [show probeName "06_01_24_10" 1 = "06_01_24_10__1.dat" from rfl] at h

end ThomasIno
namespace ThomasIno

theorem loopTick_mono (printF : ℚ → String) (st : LogSt) (t : Tick) :
    st.numBytes ≤ (loopTick printF st t).numBytes ∧
      st.numDataPoints ≤ (loopTick printF st t).numDataPoints := by
  rcases hh : t.dhtHumidity with - | h <;>
    rcases ht : t.dhtTemperature with - | tc <;>
      simp only [loopTick, log, hh, ht] <;> split_ifs <;> simp

theorem runTicks_mono (printF : ℚ → String) (st : LogSt) (ts : List Tick) :
    st.numBytes ≤ (runTicks printF st ts).numBytes ∧
      st.numDataPoints ≤ (runTicks printF st ts).numDataPoints := by
  induction ts generalizing st with
  | nil => exact ⟨le_refl _, le_refl _⟩
  | cons t ts ih =>
    have h1 := loopTick_mono printF st t
    have h2 := ih (loopTick printF st t)
    exact ⟨le_trans h1.1 h2.1, le_trans h1.2 h2.2⟩

theorem loopTick_nan (printF : ℚ → String) (st : LogSt) (t : Tick)
    (hm : st.mode ≠ 0) (he : wsub32 t.now st.logCooldown > 5000)
    (hnan : t.dhtHumidity = none ∨ t.dhtTemperature = none) :
    (loopTick printF st t).numBytes = st.numBytes ∧
      (loopTick printF st t).numDataPoints = st.numDataPoints + 1 := by
  rcases hnan with h | h
  · rcases ht : t.dhtTemperature with - | tc <;>
      simp only [loopTick, log, h, ht] <;> split_ifs <;> simp_all
  · rcases hh : t.dhtHumidity with - | h2 <;>
      simp only [loopTick, log, hh, h] <;> split_ifs <;> simp_all

/-- C4 (amended): across any sequence of logging ticks of `loop` in
`src/THOMAS.ino`, `numBytes` and `numDataPoints` are monotonically
non-decreasing; a tick whose DHT read is NaN writes nothing
(`numBytes` unchanged) but still increments `numDataPoints`, because the
counter is incremented before `log` performs the NaN check. -/
theorem claim_C4_counters_monotone_nan_counted :
    (∀ (printF : ℚ → String) (st : LogSt) (ts : List Tick),
      st.numBytes ≤ (runTicks printF st ts).numBytes ∧
        st.numDataPoints ≤ (runTicks printF st ts).numDataPoints) ∧
    (∀ (printF : ℚ → String) (st : LogSt) (t : Tick),
      st.mode ≠ 0 → wsub32 t.now st.logCooldown > 5000 →
      (t.dhtHumidity = none ∨ t.dhtTemperature = none) →
      (loopTick printF st t).numBytes = st.numBytes ∧
        (loopTick printF st t).numDataPoints = st.numDataPoints + 1) :=
  ⟨runTicks_mono, fun printF st t hm he hnan => loopTick_nan printF st t hm he hnan⟩

/-- Witness for C4 (amended): one NaN tick from a fresh recording state. -/
theorem claim_C4_witness :
    (loopTick (fun _ => "") ⟨2, 100, 0, 0, 0, some 20, some 40, 0, "", false⟩
        ⟨6000, 7, none, some 21⟩).numBytes = 100 ∧
    (loopTick (fun _ => "") ⟨2, 100, 0, 0, 0, some 20, some 40, 0, "", false⟩
        ⟨6000, 7, none, some 21⟩).numDataPoints = 1 :=
  claim_C4_counters_monotone_nan_counted.2 (fun _ => "")
    ⟨2, 100, 0, 0, 0, some 20, some 40, 0, "", false⟩ ⟨6000, 7, none, some 21⟩
    (by decide) (by decide) (Or.inl rfl)

/-- C4 is false as stated: a NaN tick does not leave both counters
unchanged — `numDataPoints` goes from 0 to 1 even though the sample is
discarded (`numBytes` stays at 100). -/
theorem claim_C4_counterexample :
    (loopTick (fun _ => "") ⟨2, 100, 0, 0, 0, some 20, some 40, 0, "", false⟩
        ⟨6000, 7, none, some 21⟩).numBytes = 100 ∧
    ¬((loopTick (fun _ => "")
        ⟨2, 100, 0, 0, 0, some 20, some 40, 0, "", false⟩
        ⟨6000, 7, none, some 21⟩).numDataPoints = 0) := by decide

theorem loopTick_flush (printF : ℚ → String) (st : LogSt) (t : Tick)
    (hm : st.mode ≠ 0) :
    ((loopTick printF st t).flushedNow = true ↔
      wsub32 t.now st.logCooldown > 5000 ∧ (st.numDataPoints + 1) % 5 = 0) := by
  rcases hh : t.dhtHumidity with - | h <;>
    rcases ht : t.dhtTemperature with - | tc <;>
      simp only [loopTick, log, hh, ht] <;> split_ifs <;> simp_all

/-- C7 (amended): `loop` in `src/THOMAS.ino` flushes `dataFile` exactly
when the tick counter `numDataPoints` — which advances on every logging
tick, including ticks whose NaN sample is discarded — becomes divisible
by five; the flush call's outcome is never consulted, so a flush failure
cannot affect the core. -/
theorem claim_C7_flush_every_fifth_tick :
    ∀ (printF : ℚ → String) (st : LogSt) (t : Tick), st.mode ≠ 0 →
      ((loopTick printF st t).flushedNow = true ↔
        wsub32 t.now st.logCooldown > 5000 ∧
          (st.numDataPoints + 1) % 5 = 0) :=
  fun printF st t hm => loopTick_flush printF st t hm

/-- Witness for C7 (amended): the fifth tick flushes. -/
theorem claim_C7_witness :
    ((loopTick (fun _ => "") ⟨2, 100, 4, 0, 0, some 20, some 40, 0, "", false⟩
        ⟨6000, 7, some 41, some 21⟩).flushedNow = true ↔
      wsub32 6000 0 > 5000 ∧ (4 + 1) % 5 = 0) :=
  claim_C7_flush_every_fifth_tick (fun _ => "")
    ⟨2, 100, 4, 0, 0, some 20, some 40, 0, "", false⟩
    ⟨6000, 7, some 41, some 21⟩ (by decide)

/-- C7 is false as stated: the fifth tick forces a flush even when its
sample is a discarded NaN read — only four samples were ever accepted
(`numBytes` is unchanged by this tick), yet `flushedNow` is true, so
discarded samples do advance the flush schedule. -/
theorem claim_C7_counterexample :
    (loopTick (fun _ => "") ⟨2, 77, 4, 0, 0, some 20, some 40, 0, "", false⟩
        ⟨9000, 7, none, some 21⟩).flushedNow = true ∧
    (loopTick (fun _ => "") ⟨2, 77, 4, 0, 0, some 20, some 40, 0, "", false⟩
        ⟨9000, 7, none, some 21⟩).numBytes = 77 := by decide

end ThomasIno
namespace ThomasSd

theorem offMode_warning_stays (w : World) (e : Env)
    (h : w.state = ERROR_RTC_LOST_POWER) (hb : ¬e.buttonLow)
    (ht : ¬(wsub32 e.now w.logCooldown > 7000)) :
    (offMode w e).state = ERROR_RTC_LOST_POWER := by
  simp only [offMode, h]
  norm_num [ERROR_RTC_LOST_POWER, CHECK_RTC, DEFAULT_STATE,
    READY_FOR_BUTTON_INPUT, BUTTON_PRESSED, ERROR_DATAFILE_FAILED,
    ERROR_TIME_TXT_NOT_FOUND, ERROR_TIME_TXT_FORMAT_INCORRECT,
    DONE_WORKING_MAY_REMOVE_SD, ht, hb, h]

theorem offMode_warning_expires (w : World) (e : Env)
    (h : w.state = ERROR_RTC_LOST_POWER) (hb : ¬e.buttonLow)
    (ht : wsub32 e.now w.logCooldown > 7000) :
    (offMode w e).state = READY_FOR_BUTTON_INPUT := by
  simp only [offMode, h]
  norm_num [ERROR_RTC_LOST_POWER, CHECK_RTC, DEFAULT_STATE,
    READY_FOR_BUTTON_INPUT, BUTTON_PRESSED, ERROR_DATAFILE_FAILED,
    ERROR_TIME_TXT_NOT_FOUND, ERROR_TIME_TXT_FORMAT_INCORRECT,
    DONE_WORKING_MAY_REMOVE_SD, ht, hb, h]

theorem offMode_warning_press (w : World) (e : Env)
    (h : w.state = ERROR_RTC_LOST_POWER) (hb : e.buttonLow) :
    (offMode w e).state = BUTTON_PRESSED := by
  simp only [offMode, h]
  by_cases ht : wsub32 e.now w.logCooldown > 7000 <;>
    norm_num [ERROR_RTC_LOST_POWER, CHECK_RTC, DEFAULT_STATE,
      READY_FOR_BUTTON_INPUT, BUTTON_PRESSED, ERROR_DATAFILE_FAILED,
      ERROR_TIME_TXT_NOT_FOUND, ERROR_TIME_TXT_FORMAT_INCORRECT,
      DONE_WORKING_MAY_REMOVE_SD, ht, hb, h]

theorem offMode_ready_press (w : World) (e : Env)
    (h : w.state = READY_FOR_BUTTON_INPUT) (hb : e.buttonLow) :
    (offMode w e).state = BUTTON_PRESSED := by
  simp only [offMode, h]
  norm_num [ERROR_RTC_LOST_POWER, CHECK_RTC, DEFAULT_STATE,
    READY_FOR_BUTTON_INPUT, BUTTON_PRESSED, ERROR_DATAFILE_FAILED,
    ERROR_TIME_TXT_NOT_FOUND, ERROR_TIME_TXT_FORMAT_INCORRECT,
    DONE_WORKING_MAY_REMOVE_SD, hb, h]

end ThomasSd

namespace ThomasSd

/-- C5: in `offMode` of `src/unnamed/part_000`, the
`ERROR_RTC_LOST_POWER` warning state persists while the elapsed time
since it was entered is at most the fixed 7000 ms display duration,
auto-transitions to `READY_FOR_BUTTON_INPUT` once that duration is
exceeded, and a button press during the warning is accepted immediately,
moving to `BUTTON_PRESSED` exactly as from `READY_FOR_BUTTON_INPUT`. -/
theorem claim_C5_rtc_warning_timing :
    (∀ (w : World) (e : Env), w.state = ERROR_RTC_LOST_POWER →
      ¬e.buttonLow → ¬(wsub32 e.now w.logCooldown > 7000) →
      (offMode w e).state = ERROR_RTC_LOST_POWER) ∧
    (∀ (w : World) (e : Env), w.state = ERROR_RTC_LOST_POWER →
      ¬e.buttonLow → wsub32 e.now w.logCooldown > 7000 →
      (offMode w e).state = READY_FOR_BUTTON_INPUT) ∧
    (∀ (w : World) (e : Env), w.state = ERROR_RTC_LOST_POWER →
      e.buttonLow → (offMode w e).state = BUTTON_PRESSED) ∧
    (∀ (w : World) (e : Env), w.state = READY_FOR_BUTTON_INPUT →
      e.buttonLow → (offMode w e).state = BUTTON_PRESSED) :=
  ⟨offMode_warning_stays, offMode_warning_expires, offMode_warning_press,
    offMode_ready_press⟩

end ThomasSd

namespace ThomasSd

/-- Witness for C5: the warning expires 8000 ms after entry. -/
theorem claim_C5_witness :
    (offMode
        ⟨0, 1, 0, 0, 0, 0, 0, 0, 0, 0, true, false, "",
          ⟨none, fun _ => false⟩, false⟩
        ⟨8000, false, true, true, fun _ => true, ⟨1, 1, 2024, 0, 0⟩, 0,
          1⟩).state = READY_FOR_BUTTON_INPUT :=
  claim_C5_rtc_warning_timing.2.1 _ _ rfl (by decide) (by decide)

theorem offMode_start_success (w : World) (e : Env)
    (h : w.state = BUTTON_PRESSED) (hb : ¬e.buttonLow) (hsd : e.sdBeginOk)
    (hlp : e.lostPower = false) (hopen : e.openOk (clockName e.clk) = true) :
    (offMode w e).fileWritten = headerLine ∧
      (offMode w e).numBytes = w.numBytes + headerLine.length ∧
      (offMode w e).mode = TEMP_HUMIDITY_VIEW ∧
      (offMode w e).state = DEFAULT_STATE ∧
      (offMode w e).led = false ∧
      (offMode w e).fileOpen = true ∧
      (offMode w e).numDataPoints = w.numDataPoints := by
  simp only [offMode, defineDateFile, h, hlp]
  norm_num [ERROR_RTC_LOST_POWER, CHECK_RTC, DEFAULT_STATE,
    READY_FOR_BUTTON_INPUT, BUTTON_PRESSED, ERROR_DATAFILE_FAILED,
    ERROR_TIME_TXT_NOT_FOUND, ERROR_TIME_TXT_FORMAT_INCORRECT,
    DONE_WORKING_MAY_REMOVE_SD, TEMP_HUMIDITY_VIEW, hb, hsd, hopen, h]

end ThomasSd

namespace ThomasSd

theorem menue_stop_preserves (w : World) (e : Env) (h : w.state = 6)
    (ht : wsub32 e.now w.lastPressTime > 2000) :
    (menue w e).mode = OFF ∧ (menue w e).fileOpen = false ∧
      (menue w e).led = true ∧ (menue w e).numBytes = w.numBytes ∧
      (menue w e).numDataPoints = w.numDataPoints ∧
      (menue w e).timeSeconds = w.timeSeconds := by
  simp only [menue, h, ht]
  norm_num [OFF, DONE_WORKING_MAY_REMOVE_SD]
  refine ⟨?_, ?_, ?_, ?_, ?_, ?_⟩ <;> split_ifs <;> norm_num

end ThomasSd

namespace ThomasSd

/-- C9: committing the menu's stop selection (`state = 6` after the
auto-confirm timeout in `menue` of `src/unnamed/part_000`) closes the
output handle, returns the mode to `OFF` and re-energises the idle LED,
but leaves `numBytes`, `numDataPoints` and `timeSeconds` untouched; and a
later successful session start only adds the header bytes on top of the
existing `numBytes` and never resets `numDataPoints`, so a second session
keeps accumulating from the first session's final counters. -/
theorem claim_C9_stop_keeps_counters :
    (∀ (w : World) (e : Env), w.state = 6 →
      wsub32 e.now w.lastPressTime > 2000 →
      (menue w e).mode = OFF ∧ (menue w e).fileOpen = false ∧
        (menue w e).led = true ∧ (menue w e).numBytes = w.numBytes ∧
        (menue w e).numDataPoints = w.numDataPoints ∧
        (menue w e).timeSeconds = w.timeSeconds) ∧
    (∀ (w : World) (e : Env), w.state = BUTTON_PRESSED → ¬e.buttonLow →
      e.sdBeginOk → e.lostPower = false →
      e.openOk (clockName e.clk) = true →
      (offMode w e).numBytes = w.numBytes + headerLine.length ∧
        (offMode w e).numDataPoints = w.numDataPoints) :=
  ⟨menue_stop_preserves,
    fun w e h hb hsd hlp hopen =>
      have r := offMode_start_success w e h hb hsd hlp hopen
      ⟨r.2.1, r.2.2.2.2.2.2⟩⟩

/-- Witness for C9: stopping with 600 accumulated bytes and 42 samples
keeps both counters. -/
theorem claim_C9_witness :
    (menue
        ⟨1, 6, 600, 42, 77, 0, 0, 0, 0, 0, false, true, "",
          ⟨none, fun _ => false⟩, false⟩
        ⟨9000, false, false, true, fun _ => true, ⟨6, 1, 2024, 10, 5⟩, 0,
          1⟩).numBytes = 600 ∧
    (menue
        ⟨1, 6, 600, 42, 77, 0, 0, 0, 0, 0, false, true, "",
          ⟨none, fun _ => false⟩, false⟩
        ⟨9000, false, false, true, fun _ => true, ⟨6, 1, 2024, 10, 5⟩, 0,
          1⟩).numDataPoints = 42 :=
  have r := claim_C9_stop_keeps_counters.1
    ⟨1, 6, 600, 42, 77, 0, 0, 0, 0, 0, false, true, "",
      ⟨none, fun _ => false⟩, false⟩
    ⟨9000, false, false, true, fun _ => true, ⟨6, 1, 2024, 10, 5⟩, 0, 1⟩
    rfl (by decide)
  ⟨r.2.2.2.1, r.2.2.2.2.1⟩

theorem offMode_open_fail_consumes (w : World) (e : Env) (line : List Char)
    (p : ParseOk) (h : w.state = BUTTON_PRESSED) (hb : ¬e.buttonLow)
    (hsd : e.sdBeginOk) (hlp : e.lostPower = true)
    (htxt : w.storage.timeTxt = some line)
    (hparse : parseRecovery line = some p)
    (hex : w.storage.ex (String.mk line) = false)
    (hopen : e.openOk (String.mk line ++ ".txt") = false) :
    (offMode w e).state = ERROR_DATAFILE_FAILED ∧
      (offMode w e).storage.timeTxt = none ∧
      (offMode w e).fileOpen = false := by
  simp only [offMode, defineDateFile]
  norm_num [ERROR_RTC_LOST_POWER, CHECK_RTC, DEFAULT_STATE,
    READY_FOR_BUTTON_INPUT, BUTTON_PRESSED, ERROR_DATAFILE_FAILED,
    ERROR_TIME_TXT_NOT_FOUND, ERROR_TIME_TXT_FORMAT_INCORRECT,
    DONE_WORKING_MAY_REMOVE_SD, Storage.removeTimeTxt, hb, hsd, hex, hopen,
    h, hlp, htxt, hparse, Option.some_ne_none]

theorem offMode_no_record (w : World) (e : Env)
    (h : w.state = BUTTON_PRESSED) (hb : ¬e.buttonLow) (hsd : e.sdBeginOk)
    (hlp : e.lostPower = true) (htxt : w.storage.timeTxt = none) :
    (offMode w e).state = ERROR_TIME_TXT_NOT_FOUND := by
  simp only [offMode, defineDateFile]
  norm_num [ERROR_RTC_LOST_POWER, CHECK_RTC, DEFAULT_STATE,
    READY_FOR_BUTTON_INPUT, BUTTON_PRESSED, ERROR_DATAFILE_FAILED,
    ERROR_TIME_TXT_NOT_FOUND, ERROR_TIME_TXT_FORMAT_INCORRECT,
    DONE_WORKING_MAY_REMOVE_SD, hb, hsd, h, hlp, htxt]

end ThomasSd

namespace ThomasSd

end ThomasSd

/-! Divergences between the two revisions, recorded for reference. -/

namespace ThomasIno

/-- The `src/THOMAS.ino` revision of the scan never resets
`concurrentNumbers`, so it rejects even `06_01_24` (which its own format
comment lists as supported) at the third digit; the
`src/unnamed/part_000` revision accepts it. -/
theorem ino_scan_rejects_second_field :
    parseRecovery ['0', '6', '_', '0', '1', '_', '2', '4'] = none ∧
      ThomasSd.parseRecovery ['0', '6', '_', '0', '1', '_', '2', '4'] =
        some ⟨2024, 6, 1, 0, 0, 0, 2⟩ := by decide

end ThomasIno

namespace ThomasSd

/-- The `src/unnamed/part_000` revision of the collision probe breaks on
the first name that does exist (its loop comment says the opposite), and
never terminates when no probed name exists — the divergence flagged in
the specification's design notes. -/
theorem sd_probe_stops_on_existing :
    probe (fun s => s = "b__2.txt") "b" 0 3 = some "b__2.txt" ∧
      probe (fun _ => false) "b" 0 3 = none := by decide

end ThomasSd
namespace ThomasSd

theorem defineDateFile_fileOk_not_diverged (l : Bool) (s : Storage)
    (o : String → Bool) (c : Clk) (n f : Nat)
    (hfile : (defineDateFile l s o c n f).fileOk = true) :
    (defineDateFile l s o c n f).diverged = false := by
  unfold defineDateFile at hfile ⊢
  rcases ht : s.timeTxt with - | line
  · cases l
    · norm_num [ht, Option.some_ne_none] at hfile ⊢
    · norm_num [ht, Option.some_ne_none] at hfile
  · cases l
    · norm_num [ht, Option.some_ne_none] at hfile ⊢
    · norm_num [ht, Option.some_ne_none] at hfile ⊢
      rcases hp : parseRecovery line with - | p
      · simp only [hp] at hfile
        norm_num at hfile
      · simp only [hp] at hfile ⊢
        split_ifs at hfile ⊢ <;> try norm_num
        all_goals
          rcases hpr : probe s.ex (String.mk line) 0 f with - | name
          all_goals simp only [hpr] at hfile ⊢
          all_goals norm_num at hfile ⊢

theorem offMode_begin_success (w : World) (e : Env)
    (h : w.state = BUTTON_PRESSED) (hb : ¬e.buttonLow) (hsd : e.sdBeginOk)
    (hok : (defineDateFile e.lostPower w.storage e.openOk e.clk e.nowEpoch
      e.fuel).errSt = none)
    (hfile : (defineDateFile e.lostPower w.storage e.openOk e.clk e.nowEpoch
      e.fuel).fileOk = true) :
    (offMode w e).fileWritten = headerLine ∧
      (offMode w e).numBytes = w.numBytes + headerLine.length ∧
      (offMode w e).mode = TEMP_HUMIDITY_VIEW ∧
      (offMode w e).state = DEFAULT_STATE ∧
      (offMode w e).led = false ∧
      (offMode w e).fileOpen = true ∧
      (offMode w e).numDataPoints = w.numDataPoints := by
  have hdiv := defineDateFile_fileOk_not_diverged e.lostPower w.storage
    e.openOk e.clk e.nowEpoch e.fuel hfile
  simp only [offMode]
  norm_num [ERROR_RTC_LOST_POWER, CHECK_RTC, DEFAULT_STATE,
    READY_FOR_BUTTON_INPUT, BUTTON_PRESSED, ERROR_DATAFILE_FAILED,
    ERROR_TIME_TXT_NOT_FOUND, ERROR_TIME_TXT_FORMAT_INCORRECT,
    DONE_WORKING_MAY_REMOVE_SD, TEMP_HUMIDITY_VIEW, h, hb, hsd, hok, hfile,
    hdiv]

theorem defineDateFile_open_fail (stor : Storage) (line : List Char)
    (p : ParseOk) (openOk : String → Bool) (clk : Clk) (nowEpoch fuel : Nat)
    (htxt : stor.timeTxt = some line)
    (hparse : parseRecovery line = some p)
    (hex : stor.ex (String.mk line) = false)
    (hopen : openOk (String.mk line ++ ".txt") = false) :
    defineDateFile true stor openOk clk nowEpoch fuel =
      { errSt := none, adjusted := some p
        openedName := some (String.mk line ++ ".txt"), fileOk := false
        storageAfter := stor.removeTimeTxt, refTimeAfter := some nowEpoch
        diverged := false } := by
  unfold defineDateFile
  rw [htxt]
  simp only [hparse]
  norm_num [hex, hopen, Option.some_ne_none]

theorem offMode_clock_ok_no_notfound (w : World) (e : Env)
    (h : w.state = BUTTON_PRESSED) (hlp : e.lostPower = false) :
    (offMode w e).state ≠ ERROR_TIME_TXT_NOT_FOUND := by
  by_cases hb : e.buttonLow
  · simp only [offMode]
    norm_num [ERROR_RTC_LOST_POWER, CHECK_RTC, DEFAULT_STATE,
      READY_FOR_BUTTON_INPUT, BUTTON_PRESSED, ERROR_DATAFILE_FAILED,
      ERROR_TIME_TXT_NOT_FOUND, ERROR_TIME_TXT_FORMAT_INCORRECT,
      DONE_WORKING_MAY_REMOVE_SD, h, hb]
  · by_cases hsd : e.sdBeginOk
    · cases hfo : e.openOk (clockName e.clk) <;>
        · simp only [offMode, defineDateFile]
          norm_num [ERROR_RTC_LOST_POWER, CHECK_RTC, DEFAULT_STATE,
            READY_FOR_BUTTON_INPUT, BUTTON_PRESSED, ERROR_DATAFILE_FAILED,
            ERROR_TIME_TXT_NOT_FOUND, ERROR_TIME_TXT_FORMAT_INCORRECT,
            DONE_WORKING_MAY_REMOVE_SD, h, hb, hsd, hlp, hfo]
    · simp only [offMode]
      norm_num [ERROR_RTC_LOST_POWER, CHECK_RTC, DEFAULT_STATE,
        READY_FOR_BUTTON_INPUT, BUTTON_PRESSED, ERROR_DATAFILE_FAILED,
        ERROR_TIME_TXT_NOT_FOUND, ERROR_TIME_TXT_FORMAT_INCORRECT,
        DONE_WORKING_MAY_REMOVE_SD, h, hb, hsd]


/-- C8: whenever the session start attempted on the button release in
`BUTTON_PRESSED` succeeds — `defineDateFile` set no error state and the
opened `dataFile` handle is truthy, which covers both the clock-retained
path and the recovery path, since both share the same success block —
the fixed CSV header row is the first and only data written through the
new output handle, its exact byte count is added to `numBytes`, the mode
transitions to `TEMP_HUMIDITY_VIEW`, and the LED pin is driven LOW
(`false`), the recording-active level. -/
theorem claim_C8_start_writes_header :
    ∀ (w : World) (e : Env), w.state = BUTTON_PRESSED → ¬e.buttonLow →
      e.sdBeginOk →
      (defineDateFile e.lostPower w.storage e.openOk e.clk e.nowEpoch
        e.fuel).errSt = none →
      (defineDateFile e.lostPower w.storage e.openOk e.clk e.nowEpoch
        e.fuel).fileOk = true →
      (offMode w e).fileWritten = headerLine ∧
        (offMode w e).numBytes = w.numBytes + headerLine.length ∧
        (offMode w e).mode = TEMP_HUMIDITY_VIEW ∧
        (offMode w e).led = false :=
  fun w e h hb hsd hok hfile =>
    have r := offMode_begin_success w e h hb hsd hok hfile
    ⟨r.1, r.2.1, r.2.2.1, r.2.2.2.2.1⟩

/-- Witness for C8 on both start paths: the recovery path (clock lost
power, record `06_01_24`) and the clock-retained path. -/
theorem claim_C8_witness :
    ((offMode wRec eRecOk).fileWritten = headerLine ∧
      (offMode wRec eRecOk).mode = TEMP_HUMIDITY_VIEW) ∧
    ((offMode wClk eClkOk).fileWritten = headerLine ∧
      (offMode wClk eClkOk).numBytes = 0 + headerLine.length) :=
  have r1 := claim_C8_start_writes_header wRec eRecOk rfl (by decide)
    (by decide) (by decide) (by decide)
  have r2 := claim_C8_start_writes_header wClk eClkOk rfl (by decide)
    (by decide) (by decide) (by decide)
  ⟨⟨r1.1, r1.2.2.1⟩, ⟨r2.1, r2.2.1⟩⟩

/-- C10 (amended): in the clock-power-lost start path of
`src/unnamed/part_000`, `sd.remove("time.txt")` runs right after the
`sd.open` call with no check of the handle, so every successful parse
consumes the record, even when the open fails and the attempt ends in
`ERROR_DATAFILE_FAILED`.  A retry, however, does not fail for want of
the record: the successful parse already called `rtc.adjust`, which sets
the clock and clears the lost-power condition (`lostPowerAfter`), and
with a healthy clock `offMode` can never reach
`ERROR_TIME_TXT_NOT_FOUND` — the retry derives its filename from the
now-corrected clock instead. -/
theorem claim_C10_recovery_record_consumed :
    ∀ (w : World) (e : Env) (line : List Char) (p : ParseOk),
      w.state = BUTTON_PRESSED → ¬e.buttonLow → e.sdBeginOk →
      e.lostPower = true → w.storage.timeTxt = some line →
      parseRecovery line = some p →
      w.storage.ex (String.mk line) = false →
      e.openOk (String.mk line ++ ".txt") = false →
      (offMode w e).state = ERROR_DATAFILE_FAILED ∧
        (offMode w e).storage.timeTxt = none ∧
        (offMode w e).fileOpen = false ∧
        lostPowerAfter e.lostPower
          (defineDateFile e.lostPower w.storage e.openOk e.clk e.nowEpoch
            e.fuel) = false ∧
        (∀ e2 : Env, e2.lostPower = false →
          (offMode { offMode w e with state := BUTTON_PRESSED } e2).state ≠
            ERROR_TIME_TXT_NOT_FOUND) := by
  intro w e line p h hb hsd hlp htxt hparse hex hopen
  obtain ⟨h1, h2, h3⟩ := offMode_open_fail_consumes w e line p h hb hsd hlp
    htxt hparse hex hopen
  refine ⟨h1, h2, h3, ?_, ?_⟩
  · rw [hlp, defineDateFile_open_fail w.storage line p e.openOk e.clk
      e.nowEpoch e.fuel htxt hparse hex hopen]
    simp [lostPowerAfter]
  · intro e2 hlp2
    exact offMode_clock_ok_no_notfound _ e2 (by simp) hlp2

/-- Witness for C10 (amended): record `06_01_24`, open fails, record
consumed, clock now healthy, and the retry cannot end in the
no-recovery-record error. -/
theorem claim_C10_witness :
    (offMode wRec eRecFail).state = ERROR_DATAFILE_FAILED ∧
      (offMode wRec eRecFail).storage.timeTxt = none ∧
      lostPowerAfter eRecFail.lostPower
        (defineDateFile eRecFail.lostPower wRec.storage eRecFail.openOk
          eRecFail.clk eRecFail.nowEpoch eRecFail.fuel) = false ∧
      (offMode { offMode wRec eRecFail with state := BUTTON_PRESSED }
        eClkOk).state ≠ ERROR_TIME_TXT_NOT_FOUND :=
  have r := claim_C10_recovery_record_consumed wRec eRecFail
    ['0', '6', '_', '0', '1', '_', '2', '4'] ⟨2024, 6, 1, 0, 0, 0, 2⟩ rfl
    (by decide) (by decide) rfl rfl (by decide) (by decide) (by decide)
  ⟨r.1, r.2.1, r.2.2.2.1, r.2.2.2.2 eClkOk rfl⟩

/-- C10's original retry prediction is false at this concrete run: after
the open failure the record is consumed and the clock has been set
(`lostPowerAfter` reads false), and the retry with the healthy clock
succeeds — state `DEFAULT_STATE`, mode `TEMP_HUMIDITY_VIEW`, filename
from the corrected clock — instead of failing with the
no-recovery-record error. -/
theorem claim_C10_counterexample :
    (offMode wRec eRecFail).state = ERROR_DATAFILE_FAILED ∧
      (offMode wRec eRecFail).storage.timeTxt = none ∧
      lostPowerAfter true
        (defineDateFile true wRec.storage eRecFail.openOk eRecFail.clk
          eRecFail.nowEpoch eRecFail.fuel) = false ∧
      (offMode { offMode wRec eRecFail with state := BUTTON_PRESSED }
        eClkOk).state = DEFAULT_STATE ∧
      (offMode { offMode wRec eRecFail with state := BUTTON_PRESSED }
        eClkOk).mode = TEMP_HUMIDITY_VIEW := by decide

end ThomasSd
